import Mathlib

/-!
Shallow embedding of `src/crates/miniaudio/src/c/miniaudio_wrapper.c`
(the C glue layer of the synthizer miniaudio crate), together with proofs
about its logging bridge, device enumerator, and playback-device lifecycle.

Modelling conventions:
* C function pointers and opaque `void *` values are abstracted as `Nat`
  identifiers; `NULL` is `Option.none`.
* Heap allocation is modelled by an explicit allocation state (a list of
  live addresses plus a bump counter); the success of each `malloc`/`strdup`
  call is decided by an oracle `Nat → Bool` indexed by the number of
  allocation attempts made so far. Freeing removes an address from the live
  list; dereferencing an address that is not live, or `NULL`, is undefined
  behaviour and is made explicit in the result type.
* Calls into the miniaudio backend (`ma_context_get_devices`,
  `ma_device_init`, `ma_device_start`, ...) are external to the wrapper;
  their outcomes are passed in as parameters, and where the model needs
  their effect on backend-owned state it follows the spec's description of
  the backend capability.
* Machine integers are `Nat`; the one place where 32-bit overflow matters
  (the `frames * channels` multiplication in `data_proc`, both operands
  `ma_uint32`) is modelled with an explicit `% 2 ^ 32`.
-/

namespace MiniaudioWrapper

/-! ## Logging bridge (lines 11–57 of miniaudio_wrapper.c) -/

/-- The four miniaudio log levels the wrapper distinguishes
(`MA_LOG_LEVEL_DEBUG/INFO/WARNING/ERROR`). -/
inductive LogSeverity where
  | debug
  | info
  | warning
  | error
deriving DecidableEq, Repr

/-- The global `log_callbacks` struct: four independently optional sink
function pointers (a sink is `none` when the corresponding pointer is
`NULL`). -/
structure LogCallbacks where
  error : Option Nat
  warn : Option Nat
  info : Option Nat
  debug : Option Nat
deriving DecidableEq, Repr

/-- Observable outcome of one `log_callback` invocation: either some sink
function pointer was called with the message, or the wrapper called a
`NULL` function pointer (undefined behaviour). -/
inductive LogResult where
  | delivered (sink : Nat) (msg : String)
  | nullCall (msg : String)
deriving DecidableEq, Repr

/-- One `LVL(X, Y)` macro expansion from `log_callback`: if the level is
`target` and the sink pointer is non-`NULL`, call it and return; otherwise
fall through. -/
def lvlCase (target : LogSeverity) (sink : Option Nat) (level : LogSeverity)
    (msg : String) : Option LogResult :=
  match sink with
  | some s => if level = target then some (.delivered s msg) else none
  | none => none

/-- `log_callback` (lines 21–37): try the four `LVL` cases in order
(debug, info, warning, error); if none returned, unconditionally call
`log_callbacks.error(message)` — which is a `NULL`-pointer call when the
error sink is absent. -/
def log_callback (cbs : LogCallbacks) (level : LogSeverity) (msg : String) :
    LogResult :=
  match lvlCase .debug cbs.debug level msg with
  | some r => r
  | none =>
    match lvlCase .info cbs.info level msg with
    | some r => r
    | none =>
      match lvlCase .warning cbs.warn level msg with
      | some r => r
      | none =>
        match lvlCase .error cbs.error level msg with
        | some r => r
        | none =>
          match cbs.error with
          | some s => .delivered s msg
          | none => .nullCall msg

/-- The sink pointer registered for a severity, read straight from the
struct field the corresponding `LVL` line consults. -/
def sinkFor (cbs : LogCallbacks) (level : LogSeverity) : Option Nat :=
  match level with
  | .debug => cbs.debug
  | .info => cbs.info
  | .warning => cbs.warn
  | .error => cbs.error

/-- Global logging state: the `log_callbacks` struct plus the progress of
the native `ma_log` initialization. -/
structure LoggingState where
  log_callbacks : LogCallbacks
  loggerReady : Bool
  callbackRegistered : Bool
deriving DecidableEq, Repr

/-- `init_logging` (lines 39–57): store the four sink pointers into the
global struct first, then attempt `ma_log_init` and
`ma_log_register_callback` (their success is external input `logInitOk`
and `registerOk`); return `0` (`false`) on either native failure, `1`
(`true`) otherwise. The sink stores are never rolled back. -/
def init_logging (st : LoggingState) (err_cb warn_cb info_cb debug_cb : Option Nat)
    (logInitOk registerOk : Bool) : LoggingState × Bool :=
  let st1 : LoggingState :=
    { st with
      log_callbacks :=
        { error := err_cb, warn := warn_cb, info := info_cb, debug := debug_cb } }
  if logInitOk = false then (st1, false)
  else
    let st2 : LoggingState := { st1 with loggerReady := true }
    if registerOk = false then (st2, false)
    else ({ st2 with callbackRegistered := true }, true)

/-! ## Device enumerator (lines 70–114 of miniaudio_wrapper.c) -/

/-- One entry of the playback list returned by `ma_context_get_devices`:
a name, an opaque device id (abstracted to a `Nat` blob), and the
`isDefault` flag. -/
structure MaDeviceInfo where
  name : String
  id : Nat
  isDefault : Bool
deriving DecidableEq, Repr

/-- Allocation state of one `enumerate_output_devices` call: the addresses
allocated by this call that are still live, the bump allocator's next
address, and how many allocation attempts (`strdup`/`malloc`) have been
made so far (this indexes the success oracle). -/
structure AllocState where
  live : List Nat
  next : Nat
  count : Nat
deriving DecidableEq, Repr

/-- The empty allocation state at the start of an enumeration call. -/
def AllocState.start : AllocState := { live := [], next := 0, count := 0 }

/-- One allocation attempt (`strdup` or `malloc`): the oracle decides
whether attempt number `st.count` succeeds; on success a fresh address
becomes live. -/
def tryAlloc (oracle : Nat → Bool) (st : AllocState) : Option Nat × AllocState :=
  if oracle st.count then
    (some st.next,
      { live := st.next :: st.live, next := st.next + 1, count := st.count + 1 })
  else
    (none, { st with count := st.count + 1 })

/-- `free` of one address: the address stops being live. -/
def freeAddr (a : Nat) (st : AllocState) : AllocState :=
  { st with live := st.live.erase a }

/-- The `struct device_info` value handed to the enumeration callback for
one device: the copied name (with the address of the `strdup` copy), the
copied id blob (with the address of the `malloc` copy), and the default
flag. -/
structure DeviceInfoArg where
  name : String
  nameAddr : Nat
  id : Nat
  idAddr : Nat
  is_platform_default : Bool
deriving DecidableEq, Repr

/-- Recover the underlying `ma_device_info` contents from a visitor
argument (what the visitor observes, addresses aside). -/
def DeviceInfoArg.toInfo (a : DeviceInfoArg) : MaDeviceInfo :=
  { name := a.name, id := a.id, isDefault := a.is_platform_default }

/-- The heap addresses held by a list of visitor arguments, in the order
the bump allocator's live list ends up in (most recent first). -/
def liveAddrs : List DeviceInfoArg → List Nat
  | [] => []
  | a :: rest => liveAddrs rest ++ [a.idAddr, a.nameAddr]

/-- The `for` loop of `enumerate_output_devices` (lines 88–111). For each
device: `strdup` the name (return `1` on failure), `malloc` a copy of the
id (free the name and return `1` on failure), invoke the callback with the
`device_info`, and continue. Returns the final allocation state, the list
of callback invocations in order, and the `uint8_t` result. Nothing is
freed after a successful callback invocation. -/
def enumLoop (oracle : Nat → Bool) :
    List MaDeviceInfo → AllocState → AllocState × List DeviceInfoArg × Bool
  | [], st => (st, [], true)
  | d :: rest, st =>
    match tryAlloc oracle st with
    | (none, st1) => (st1, [], true)
    | (some nameAddr, st1) =>
      match tryAlloc oracle st1 with
      | (none, st2) => (freeAddr nameAddr st2, [], true)
      | (some idAddr, st2) =>
        let arg : DeviceInfoArg :=
          { name := d.name, nameAddr := nameAddr, id := d.id, idAddr := idAddr,
            is_platform_default := d.isDefault }
        let r := enumLoop oracle rest st2
        (r.1, arg :: r.2.1, r.2.2)

/-- `enumerate_output_devices` (lines 79–114): `ma_context_get_devices`
either fails (`query = none`, the function returns `0`) or yields the
playback device list, which is walked by the loop. The allocation state
starts empty, so the final `live` list is exactly the allocations made by
this call that the wrapper never freed. -/
def enumerate_output_devices (oracle : Nat → Bool)
    (query : Option (List MaDeviceInfo)) :
    AllocState × List DeviceInfoArg × Bool :=
  match query with
  | none => (AllocState.start, [], false)
  | some playback => enumLoop oracle playback AllocState.start

/-! ## Playback device (lines 116–180 of miniaudio_wrapper.c) -/

/-- Streaming state of the native `ma_device` (started or not). -/
inductive MaDeviceState where
  | stopped
  | started
deriving DecidableEq, Repr

/-- The `ma_device` embedded in the wrapper, reduced to what the wrapper
code reads: the negotiated playback channel count
(`device.playback.channels`), the negotiated `sampleRate`, and whether the
device is started. -/
structure NativeDevice where
  playbackChannels : Nat
  sampleRate : Nat
  state : MaDeviceState
deriving DecidableEq, Repr

/-- `struct device_config`: the negotiated sample rate and channel count
copied out of the native device at open time. -/
structure DeviceConfigC where
  sr : Nat
  channels : Nat
deriving DecidableEq, Repr

/-- `struct wrapped_device`: the native device plus the pinned callback
pointer, the opaque Rust userdata pointer, and the config snapshot. -/
structure WrappedDevice where
  device : NativeDevice
  callback : Nat
  rust_userdata : Nat
  config : DeviceConfigC
deriving DecidableEq, Repr

/-- `struct device_options`: optional specific device id (`none` = `NULL`
= platform default), requested channel count and sample rate. -/
structure DeviceOptions where
  device_id : Option Nat
  channels : Nat
  sr : Nat
deriving DecidableEq, Repr

/-- The sample format field of the device config; `playback_device_open`
fixes it to `ma_format_f32`. -/
inductive MaFormat where
  | f32
deriving DecidableEq, Repr

/-- The `ma_device_config` that `playback_device_open` builds and hands to
`ma_device_init` (the fields the wrapper sets; `dataCallback` and
`pUserData` are the trampoline and the wrapper pointer). -/
structure MaDeviceConfig where
  channels : Nat
  format : MaFormat
  sampleRate : Nat
  pDeviceID : Option Nat
deriving DecidableEq, Repr

/-- Heap of live `wrapped_device` allocations: address → contents, plus a
bump counter for fresh addresses. -/
structure DeviceHeap where
  store : List (Nat × WrappedDevice)
  next : Nat
deriving DecidableEq, Repr

/-- The empty device heap. -/
def DeviceHeap.empty : DeviceHeap := { store := [], next := 0 }

/-- Look up a live device by address. -/
def DeviceHeap.lookup (h : DeviceHeap) (a : Nat) : Option WrappedDevice :=
  (h.store.find? (fun p => p.1 == a)).map (fun p => p.2)

/-- `free` of a wrapped device: that allocation stops being live. -/
def DeviceHeap.freeAt (h : DeviceHeap) (a : Nat) : DeviceHeap :=
  { h with store := h.store.eraseP (fun p => p.1 == a) }

/-- What `playback_device_open` returns: a non-`NULL` device pointer,
`NULL`, or undefined behaviour (a write through a `NULL` pointer). -/
inductive OpenRet where
  | dev (addr : Nat)
  | null
  | ub
deriving DecidableEq, Repr

/-- `playback_device_open` (lines 129–156). Builds the
`ma_device_config` (playback type, requested channels, `f32` format,
requested sample rate, optional device id), then `malloc`s the wrapper —
WITHOUT checking the result — and immediately writes `rust_userdata` and
`callback` through the pointer: if the allocation failed this dereferences
`NULL` (undefined behaviour). Then `ma_device_init` runs (outcome and the
negotiated values are external input: `maInit cfg = none` means failure,
`some (negotiatedChannels, negotiatedSr)` success). On failure the wrapper
is freed (`goto fail`) and `NULL` returned; on success the negotiated
channel count and sample rate are copied into `config` and the pointer
returned. -/
def playback_device_open (h : DeviceHeap) (options : DeviceOptions)
    (cb userdata : Nat) (mallocOk : Bool)
    (maInit : MaDeviceConfig → Option (Nat × Nat)) : DeviceHeap × OpenRet :=
  let cfg : MaDeviceConfig :=
    { channels := options.channels, format := .f32, sampleRate := options.sr,
      pDeviceID := options.device_id }
  let deviceP : Option Nat := if mallocOk then some h.next else none
  match deviceP with
  | none => (h, .ub)
  | some addr =>
    let preInitDev : WrappedDevice :=
      { device := { playbackChannels := 0, sampleRate := 0, state := .stopped },
        callback := cb, rust_userdata := userdata,
        config := { sr := 0, channels := 0 } }
    let h1 : DeviceHeap :=
      { store := (addr, preInitDev) :: h.store, next := h.next + 1 }
    match maInit cfg with
    | none => (h1.freeAt addr, .null)
    | some (negCh, negSr) =>
      let dev : WrappedDevice :=
        { device := { playbackChannels := negCh, sampleRate := negSr,
                      state := .stopped },
          callback := cb, rust_userdata := userdata,
          config := { sr := negSr, channels := negCh } }
      ({ store := (addr, dev) :: h.store, next := h.next + 1 }, .dev addr)

/-- What a destroy call does: returns normally, or hits undefined
behaviour (use of a dangling pointer). -/
inductive DestroyRet where
  | ok
  | ub
deriving DecidableEq, Repr

/-- `playback_device_destroy` (lines 158–167): if the pointer is `NULL`,
return immediately (no-op); otherwise `ma_device_uninit(&device->device)`
and `free(device)` — which dereference the pointer, so a pointer that is
not a live allocation (for example one already destroyed) is undefined
behaviour. -/
def playback_device_destroy (h : DeviceHeap) (device_v : Option Nat) :
    DeviceHeap × DestroyRet :=
  match device_v with
  | none => (h, .ok)
  | some addr =>
    if h.store.any (fun p => p.1 == addr) then (h.freeAt addr, .ok)
    else (h, .ub)

/-- `playback_device_get_config` (lines 169–172): returns
`&device->config`, with no side effect on the wrapper. -/
def playback_device_get_config (d : WrappedDevice) : DeviceConfigC :=
  d.config

/-- Modelled from the spec: the backend capability `ma_device_start`
(miniaudio itself is not part of the wrapper source). Per the spec's
backend interface and start semantics, a successful start arms the device
(state becomes started); on failure the device state is left unchanged.
Success is external input. -/
def ma_device_start (nd : NativeDevice) (ok : Bool) : NativeDevice × Bool :=
  if ok then ({ nd with state := .started }, true) else (nd, false)

/-- Modelled from the spec: the backend capability `ma_device_stop`; a
successful stop halts callback delivery (state becomes stopped); on
failure the device state is left unchanged. Success is external input. -/
def ma_device_stop (nd : NativeDevice) (ok : Bool) : NativeDevice × Bool :=
  if ok then ({ nd with state := .stopped }, true) else (nd, false)

/-- `playback_device_start` (lines 178–180): calls `ma_device_start` on
the embedded native device and reports whether it returned `MA_SUCCESS`;
it touches no other field of the wrapper. -/
def playback_device_start (d : WrappedDevice) (ok : Bool) :
    WrappedDevice × Bool :=
  let r := ma_device_start d.device ok
  ({ d with device := r.1 }, r.2)

/-- `playback_device_stop` (lines 174–176): calls `ma_device_stop` on the
embedded native device and reports whether it returned `MA_SUCCESS`; it
touches no other field of the wrapper. -/
def playback_device_stop (d : WrappedDevice) (ok : Bool) :
    WrappedDevice × Bool :=
  let r := ma_device_stop d.device ok
  ({ d with device := r.1 }, r.2)

/-! ## Streaming callback trampoline (lines 123–127) -/

/-- One invocation of the caller's `playback_callback`: the function
pointer called, the output buffer pointer, the
`unsigned long long output_buffer_length` sample count, the config pointed
to, and the userdata. -/
structure CallbackCall where
  fn : Nat
  buffer : Nat
  sampleCount : Nat
  config : DeviceConfigC
  userdata : Nat
deriving DecidableEq, Repr

/-- `data_proc` (lines 123–127): resolve `device->pUserData` back to the
wrapper and invoke `wrapped->callback(output, frames *
device->playback.channels, &wrapped->config, wrapped->rust_userdata)`
exactly once. Both `frames` and `device->playback.channels` are
`ma_uint32`, so the product is computed in 32-bit unsigned arithmetic
(wrapping mod `2 ^ 32`) before being widened to the callback's
`unsigned long long` parameter. -/
def data_proc (wrapped : WrappedDevice) (output : Nat) (frames : Nat) :
    CallbackCall :=
  { fn := wrapped.callback, buffer := output,
    sampleCount := (frames * wrapped.device.playbackChannels) % 2 ^ 32,
    config := wrapped.config, userdata := wrapped.rust_userdata }

/-- `device_info_deinit` (lines 70–77): with a `NULL` pointer this is a
no-op; otherwise it frees the descriptor's name copy and id copy. In the
wrapper's design this is how the *caller* releases a descriptor received
from enumeration — `enumerate_output_devices` itself never calls it. -/
def device_info_deinit (info : Option DeviceInfoArg) (st : AllocState) :
    AllocState :=
  match info with
  | none => st
  | some a => freeAddr a.idAddr (freeAddr a.nameAddr st)

/-! ## Concrete instances used to exercise the theorems -/

/-- A sink set with only the error and debug sinks present. -/
def cbsA : LogCallbacks :=
  { error := some 3, warn := none, info := none, debug := some 7 }

/-- An allocation oracle on which every allocation succeeds. -/
def okOracle : Nat → Bool := fun _ => true

/-- An allocation oracle on which every allocation fails. -/
def failOracle : Nat → Bool := fun _ => false

/-- A sample enumerated device. -/
def devA : MaDeviceInfo := { name := "a", id := 5, isDefault := true }

/-- Another sample enumerated device. -/
def devB : MaDeviceInfo := { name := "dev", id := 9, isDefault := false }

/-- Sample open options: platform default device, stereo, 48 kHz. -/
def optsA : DeviceOptions := { device_id := none, channels := 2, sr := 48000 }

/-- A backend init outcome that negotiates exactly the requested stereo
48 kHz configuration. -/
def maInitA : MaDeviceConfig → Option (Nat × Nat) := fun _ => some (2, 48000)

/-- The heap after opening one device (at address 0) on the empty heap. -/
def heapA : DeviceHeap :=
  (playback_device_open DeviceHeap.empty optsA 11 22 true maInitA).1

/-- A sample opened wrapper device: stereo at 48 kHz. -/
def bigDev : WrappedDevice :=
  { device := { playbackChannels := 2, sampleRate := 48000, state := .stopped },
    callback := 11, rust_userdata := 22,
    config := { sr := 48000, channels := 2 } }

/-! ## Helper lemmas about the enumeration loop -/

/-- The enumeration loop always returns `1` (success), whatever the
allocation oracle does. -/
theorem enumLoop_ok (oracle : Nat → Bool) (devs : List MaDeviceInfo)
    (st : AllocState) : (enumLoop oracle devs st).2.2 = true := by
  induction devs generalizing st with
  | nil => rfl
  | cons d rest ih =>
    by_cases h1 : oracle st.count
    · by_cases h2 : oracle (st.count + 1)
      · simp [enumLoop, tryAlloc, h1, h2, ih]
      · simp [enumLoop, tryAlloc, h1, h2]
    · simp [enumLoop, tryAlloc, h1]

/-- After the loop, the live allocations are exactly the name and id
copies of the descriptors that were handed to the visitor, on top of
whatever was live before. -/
theorem enumLoop_live (oracle : Nat → Bool) (devs : List MaDeviceInfo)
    (st : AllocState) :
    (enumLoop oracle devs st).1.live
      = liveAddrs (enumLoop oracle devs st).2.1 ++ st.live := by
  induction devs generalizing st with
  | nil => simp [enumLoop, liveAddrs]
  | cons d rest ih =>
    by_cases h1 : oracle st.count
    · by_cases h2 : oracle (st.count + 1)
      · simp [enumLoop, tryAlloc, h1, h2, liveAddrs, ih]
      · simp [enumLoop, tryAlloc, h1, h2, liveAddrs, freeAddr]
    · simp [enumLoop, tryAlloc, h1, liveAddrs]

/-- The visitor sees the device list's contents in order: the visited
descriptors are exactly the first `k` devices of the backend's list, for
`k` the number of visits. -/
theorem enumLoop_visits (oracle : Nat → Bool) (devs : List MaDeviceInfo)
    (st : AllocState) :
    ((enumLoop oracle devs st).2.1).map DeviceInfoArg.toInfo
      = devs.take ((enumLoop oracle devs st).2.1).length := by
  induction devs generalizing st with
  | nil => rfl
  | cons d rest ih =>
    by_cases h1 : oracle st.count
    · by_cases h2 : oracle (st.count + 1)
      · simp [enumLoop, tryAlloc, h1, h2, DeviceInfoArg.toInfo, ih]
      · simp [enumLoop, tryAlloc, h1, h2]
    · simp [enumLoop, tryAlloc, h1]

/-- When the loop visits fewer devices than the backend reported, the
reason is an allocation failure at the next device: either its name copy
(allocation attempt `2k`) or its id copy (attempt `2k + 1`) failed. -/
theorem enumLoop_stop (oracle : Nat → Bool) (devs : List MaDeviceInfo)
    (st : AllocState)
    (hlt : ((enumLoop oracle devs st).2.1).length < devs.length) :
    oracle (st.count + 2 * ((enumLoop oracle devs st).2.1).length) = false ∨
    oracle (st.count + 2 * ((enumLoop oracle devs st).2.1).length + 1) = false := by
  induction devs generalizing st with
  | nil => simp [enumLoop] at hlt
  | cons d rest ih =>
    cases h1 : oracle st.count with
    | false =>
      left
      have hv : (enumLoop oracle (d :: rest) st).2.1 = [] := by
        simp [enumLoop, tryAlloc, h1]
      rw [hv]
      simpa using h1
    | true =>
      cases h2 : oracle (st.count + 1) with
      | false =>
        right
        have hv : (enumLoop oracle (d :: rest) st).2.1 = [] := by
          simp [enumLoop, tryAlloc, h1, h2]
        rw [hv]
        simpa using h2
      | true =>
        have t1 : tryAlloc oracle st = (some st.next,
            { live := st.next :: st.live, next := st.next + 1,
              count := st.count + 1 }) := by
          simp [tryAlloc, h1]
        have t2 : tryAlloc oracle
            { live := st.next :: st.live, next := st.next + 1,
              count := st.count + 1 }
            = (some (st.next + 1),
              { live := (st.next + 1) :: st.next :: st.live,
                next := st.next + 1 + 1, count := st.count + 1 + 1 }) := by
          simp [tryAlloc, h2]
        have hv : (enumLoop oracle (d :: rest) st).2.1
            = { name := d.name, nameAddr := st.next, id := d.id,
                idAddr := st.next + 1, is_platform_default := d.isDefault }
              :: (enumLoop oracle rest
                { live := (st.next + 1) :: st.next :: st.live,
                  next := st.next + 1 + 1, count := st.count + 1 + 1 }).2.1 := by
          rw [enumLoop, t1]
          dsimp only
          rw [t2]
        rw [hv] at hlt ⊢
        simp only [List.length_cons] at hlt ⊢
        have hlt2 : ((enumLoop oracle rest
            { live := (st.next + 1) :: st.next :: st.live,
              next := st.next + 1 + 1, count := st.count + 1 + 1 }).2.1).length
            < rest.length := by omega
        have h3 := ih
          ({ live := (st.next + 1) :: st.next :: st.live,
             next := st.next + 1 + 1, count := st.count + 1 + 1 } : AllocState)
          hlt2
        rcases h3 with h3 | h3
        · left
          have harith : st.count + 2 * (((enumLoop oracle rest
              { live := (st.next + 1) :: st.next :: st.live,
                next := st.next + 1 + 1, count := st.count + 1 + 1 }).2.1).length + 1)
              = st.count + 1 + 1 + 2 * ((enumLoop oracle rest
              { live := (st.next + 1) :: st.next :: st.live,
                next := st.next + 1 + 1, count := st.count + 1 + 1 }).2.1).length := by
            omega
          rw [harith]
          exact h3
        · right
          have harith : st.count + 2 * (((enumLoop oracle rest
              { live := (st.next + 1) :: st.next :: st.live,
                next := st.next + 1 + 1, count := st.count + 1 + 1 }).2.1).length + 1) + 1
              = st.count + 1 + 1 + 2 * ((enumLoop oracle rest
              { live := (st.next + 1) :: st.next :: st.live,
                next := st.next + 1 + 1, count := st.count + 1 + 1 }).2.1).length + 1 := by
            omega
          rw [harith]
          exact h3

/-- Each visited descriptor's two copies are among the addresses
`liveAddrs` records for the visit list. -/
theorem mem_liveAddrs {a : DeviceInfoArg} {vs : List DeviceInfoArg}
    (h : a ∈ vs) :
    a.nameAddr ∈ liveAddrs vs ∧ a.idAddr ∈ liveAddrs vs := by
  induction vs with
  | nil => cases h
  | cons b rest ih =>
    rcases List.mem_cons.mp h with rfl | h2
    · simp [liveAddrs]
    · have := ih h2
      simp only [liveAddrs, List.mem_append]
      exact ⟨Or.inl this.1, Or.inl this.2⟩

/-! ## Claim theorems -/

/-- C2: for every incoming (severity, message) log event, if the sink
registered for that exact severity is present then `log_callback` delivers
the message to that sink; and for every severity whose sink is absent
while the error sink is present, the message is delivered verbatim to the
error sink (including debug, info and warning messages), never dropped. -/
theorem log_callback_exact_and_error_fallback (cbs : LogCallbacks)
    (level : LogSeverity) (msg : String) :
    (∀ s : Nat, sinkFor cbs level = some s →
      log_callback cbs level msg = .delivered s msg) ∧
    (∀ e : Nat, sinkFor cbs level = none → cbs.error = some e →
      log_callback cbs level msg = .delivered e msg) := by
  constructor
  · intro s hs
    cases level <;>
      simp only [sinkFor] at hs <;>
      cases hd : cbs.debug <;> cases hi : cbs.info <;> cases hw : cbs.warn <;>
        cases he : cbs.error <;>
      simp_all [log_callback, lvlCase]
  · intro e hs he
    cases level <;>
      simp only [sinkFor] at hs <;>
      cases hd : cbs.debug <;> cases hi : cbs.info <;> cases hw : cbs.warn <;>
      simp_all [log_callback, lvlCase]

/-- C2 witness: with only error (3) and debug (7) sinks registered, a
debug message goes to the debug sink and an info message falls back to
the error sink. -/
theorem log_callback_exact_and_error_fallback_witness :
    log_callback cbsA .debug "boom" = .delivered 7 "boom" ∧
    log_callback cbsA .info "boom" = .delivered 3 "boom" :=
  ⟨(log_callback_exact_and_error_fallback cbsA .debug "boom").1 7 rfl,
   (log_callback_exact_and_error_fallback cbsA .info "boom").2 3 rfl rfl⟩

/-- C9: `init_logging` stores all four sink pointers into the process-wide
registry unconditionally — in particular before (and regardless of) the
native `ma_log_init` / `ma_log_register_callback` outcomes — so even when
it returns failure the four sinks remain installed; no rollback occurs. -/
theorem init_logging_installs_sinks_unconditionally (st : LoggingState)
    (e w i d : Option Nat) (logInitOk registerOk : Bool) :
    (init_logging st e w i d logInitOk registerOk).1.log_callbacks
      = { error := e, warn := w, info := i, debug := d } ∧
    (init_logging st e w i d false registerOk).2 = false ∧
    (init_logging st e w i d true false).2 = false := by
  refine ⟨?_, rfl, rfl⟩
  cases logInitOk <;> cases registerOk <;> simp [init_logging]

/-- C3: `enumerate_output_devices` fails exactly when the underlying
device query fails; a successful query with zero playback devices returns
success and invokes the visitor zero times. -/
theorem enumerate_failure_iff_query_failure (oracle : Nat → Bool)
    (query : Option (List MaDeviceInfo)) :
    ((enumerate_output_devices oracle query).2.2 = false ↔ query = none) ∧
    (enumerate_output_devices oracle (some [])).2.2 = true ∧
    (enumerate_output_devices oracle (some [])).2.1 = [] := by
  refine ⟨?_, rfl, rfl⟩
  cases query with
  | none => simp [enumerate_output_devices]
  | some l =>
    simp [enumerate_output_devices, enumLoop_ok oracle l AllocState.start]

/-- C3 witness: a failed query returns `0`, an empty successful query
returns `1`. -/
theorem enumerate_failure_iff_query_failure_witness :
    (enumerate_output_devices okOracle none).2.2 = false ∧
    (enumerate_output_devices okOracle (some [])).2.2 = true :=
  ⟨(enumerate_failure_iff_query_failure okOracle none).1.mpr rfl,
   (enumerate_failure_iff_query_failure okOracle (some [])).2.1⟩

/-- C4: whatever the allocation oracle does, enumeration returns success;
the visitor saw exactly an initial segment of the device list (every
invocation made before a failure stands); the live allocations are exactly
those of the visited descriptors (so a partial allocation for the failed
device was freed); and if not all devices were visited, the next device's
name-copy or id-copy allocation is the one that failed. -/
theorem enumerate_alloc_failure_graceful (oracle : Nat → Bool)
    (devs : List MaDeviceInfo) :
    (enumerate_output_devices oracle (some devs)).2.2 = true ∧
    ((enumerate_output_devices oracle (some devs)).2.1).map DeviceInfoArg.toInfo
      = devs.take ((enumerate_output_devices oracle (some devs)).2.1).length ∧
    (enumerate_output_devices oracle (some devs)).1.live
      = liveAddrs (enumerate_output_devices oracle (some devs)).2.1 ∧
    (((enumerate_output_devices oracle (some devs)).2.1).length < devs.length →
      oracle (2 * ((enumerate_output_devices oracle (some devs)).2.1).length)
          = false ∨
      oracle (2 * ((enumerate_output_devices oracle (some devs)).2.1).length + 1)
          = false) := by
  refine ⟨enumLoop_ok oracle devs AllocState.start,
    enumLoop_visits oracle devs AllocState.start, ?_, ?_⟩
  · have hl := enumLoop_live oracle devs AllocState.start
    simpa [enumerate_output_devices, AllocState.start] using hl
  · intro hlt
    have hs := enumLoop_stop oracle devs AllocState.start hlt
    simpa [enumerate_output_devices, AllocState.start] using hs

/-- C4 witness: with an oracle on which every allocation fails and one
device, enumeration still returns success and the failing allocation is
the first one attempted for the unvisited device. -/
theorem enumerate_alloc_failure_graceful_witness :
    failOracle
        (2 * ((enumerate_output_devices failOracle (some [devA])).2.1).length)
        = false ∨
    failOracle
        (2 * ((enumerate_output_devices failOracle (some [devA])).2.1).length + 1)
        = false :=
  (enumerate_alloc_failure_graceful failOracle [devA]).2.2.2 (by decide)

/-- C1 counterexample: enumerating one device with all allocations
succeeding leaves that descriptor's name and id allocations live after
the call returns — the enumerator does not release them. -/
theorem enumerate_leaves_allocations_live_counterexample :
    (enumerate_output_devices okOracle (some [devB])).1.live ≠ [] := by decide

/-- C1 amended: `enumerate_output_devices` does not release a visited
descriptor's allocations; ownership of the copied name and id transfers to
the visitor (to be released by the caller via `device_info_deinit`). The
allocations still live when the call returns are exactly the name and id
copies of the visited descriptors, and both copies of every visited
descriptor are among them. -/
theorem enumerate_descriptor_ownership_to_visitor (oracle : Nat → Bool)
    (devs : List MaDeviceInfo) :
    (enumerate_output_devices oracle (some devs)).1.live
      = liveAddrs (enumerate_output_devices oracle (some devs)).2.1 ∧
    (∀ a ∈ (enumerate_output_devices oracle (some devs)).2.1,
      a.nameAddr ∈ (enumerate_output_devices oracle (some devs)).1.live ∧
      a.idAddr ∈ (enumerate_output_devices oracle (some devs)).1.live) := by
  have hl := enumLoop_live oracle devs AllocState.start
  have hlive : (enumerate_output_devices oracle (some devs)).1.live
      = liveAddrs (enumerate_output_devices oracle (some devs)).2.1 := by
    simpa [enumerate_output_devices, AllocState.start] using hl
  refine ⟨hlive, ?_⟩
  intro a ha
  rw [hlive]
  exact mem_liveAddrs ha

/-- C1 amended witness: in the one-device enumeration, the name copy
(address 0) and the id copy (address 1) of the visited descriptor are
still live after the call. -/
theorem enumerate_descriptor_ownership_to_visitor_witness :
    (0 : Nat) ∈ (enumerate_output_devices okOracle (some [devB])).1.live ∧
    (1 : Nat) ∈ (enumerate_output_devices okOracle (some [devB])).1.live := by
  have h := (enumerate_descriptor_ownership_to_visitor okOracle [devB]).2
    ({ name := "dev", nameAddr := 0, id := 9, idAddr := 1,
       is_platform_default := false } : DeviceInfoArg)
    (by decide)
  exact h

/-- C5 counterexample: calling `playback_device_destroy` twice with the
same non-`NULL` pointer on a device opened at address 0 is undefined
behaviour (the second call dereferences freed memory), so the claim that
a double destroy must not crash fails on the code. -/
theorem destroy_twice_counterexample :
    (playback_device_destroy
      (playback_device_destroy heapA (some 0)).1 (some 0)).2
      = DestroyRet.ub := by decide

/-- C5 amended: `playback_device_destroy` on a `NULL`/absent device is a
no-op (not an error or crash); destroying a live device releases it; but
calling it again on the same already-destroyed non-`NULL` handle is a
double free / use of a dangling pointer — undefined behaviour, guarded
only by the `NULL` check. -/
theorem destroy_null_noop_dangling_ub (h : DeviceHeap) (a : Nat) :
    playback_device_destroy h none = (h, DestroyRet.ok) ∧
    (h.store.any (fun p => p.1 == a) = true →
      playback_device_destroy h (some a) = (h.freeAt a, DestroyRet.ok)) ∧
    (h.store.any (fun p => p.1 == a) = false →
      playback_device_destroy h (some a) = (h, DestroyRet.ub)) := by
  refine ⟨rfl, ?_, ?_⟩ <;> intro hm <;> simp [playback_device_destroy, hm]

/-- C5 amended witness: the first destroy of the opened device succeeds
and frees it, the second destroy of the same handle is undefined
behaviour. -/
theorem destroy_null_noop_dangling_ub_witness :
    playback_device_destroy heapA (some 0) = (heapA.freeAt 0, DestroyRet.ok) ∧
    playback_device_destroy (heapA.freeAt 0) (some 0)
      = (heapA.freeAt 0, DestroyRet.ub) :=
  ⟨(destroy_null_noop_dangling_ub heapA 0).2.1 (by decide),
   (destroy_null_noop_dangling_ub (heapA.freeAt 0) 0).2.2 (by decide)⟩

/-- C6: whenever native device initialization fails (the `ma_device_init`
outcome is `none` on the exact config the wrapper built),
`playback_device_open` frees the partially allocated wrapper — the heap's
live store is exactly what it was before the call, so no callback or user
context reference is retained — and returns `NULL`. -/
theorem open_native_failure_releases_wrapper (h : DeviceHeap)
    (options : DeviceOptions) (cb userdata : Nat)
    (maInit : MaDeviceConfig → Option (Nat × Nat))
    (hfail : maInit
        { channels := options.channels, format := .f32,
          sampleRate := options.sr, pDeviceID := options.device_id } = none) :
    (playback_device_open h options cb userdata true maInit).1.store = h.store ∧
    (playback_device_open h options cb userdata true maInit).2
      = OpenRet.null := by
  constructor <;> simp [playback_device_open, hfail, DeviceHeap.freeAt]

/-- C6 witness: opening on the empty heap with a failing backend init
leaves the store empty and returns `NULL`. -/
theorem open_native_failure_releases_wrapper_witness :
    (playback_device_open DeviceHeap.empty optsA 11 22 true
        (fun _ => none)).1.store = DeviceHeap.empty.store ∧
    (playback_device_open DeviceHeap.empty optsA 11 22 true
        (fun _ => none)).2 = OpenRet.null :=
  open_native_failure_releases_wrapper DeviceHeap.empty optsA 11 22
    (fun _ => none) rfl

/-- C7 counterexample: on a stereo device, a trampoline invocation with
`frames = 2 ^ 31` passes the callback a sample count of
`(2 ^ 31 * 2) % 2 ^ 32 = 0`, not `2 ^ 31 * 2` — the `ma_uint32`
multiplication wraps, so the claim's `n * c` sample count fails. -/
theorem data_proc_sample_count_overflow_counterexample :
    (data_proc bigDev 100 (2 ^ 31)).sampleCount ≠ 2 ^ 31 * 2 := by decide

/-- C7 amended: each trampoline invocation calls the stored callback
exactly once with the output buffer, sample count
`(frames * negotiatedChannels) % 2 ^ 32` (the product is computed in
32-bit unsigned arithmetic, so it equals `frames * channels` whenever that
product is below `2 ^ 32`), the `DeviceConfig` stored at open time, and
the userContext supplied at open; no other transformation is performed. -/
theorem data_proc_forwards_once_mod_2_32 (w : WrappedDevice)
    (output frames : Nat) (h : DeviceHeap) (options : DeviceOptions)
    (cb userdata negCh negSr : Nat) :
    data_proc w output frames
      = { fn := w.callback, buffer := output,
          sampleCount := (frames * w.device.playbackChannels) % 2 ^ 32,
          config := w.config, userdata := w.rust_userdata } ∧
    (frames * w.device.playbackChannels < 2 ^ 32 →
      (data_proc w output frames).sampleCount
        = frames * w.device.playbackChannels) ∧
    ((playback_device_open h options cb userdata true
        (fun _ => some (negCh, negSr))).1.store.head?).map
          (fun p => data_proc p.2 output frames)
      = some { fn := cb, buffer := output,
               sampleCount := (frames * negCh) % 2 ^ 32,
               config := { sr := negSr, channels := negCh },
               userdata := userdata } := by
  refine ⟨rfl, ?_, ?_⟩
  · intro hlt
    exact Nat.mod_eq_of_lt hlt
  · simp [playback_device_open, data_proc]

/-- C7 amended witness: on the stereo device, 4 frames yield a sample
count of exactly `4 * 2`. -/
theorem data_proc_forwards_once_mod_2_32_witness :
    (data_proc bigDev 100 4).sampleCount
      = 4 * bigDev.device.playbackChannels :=
  (data_proc_forwards_once_mod_2_32 bigDev 100 4 DeviceHeap.empty optsA
    11 22 2 48000).2.1 (by decide)

/-- C8: for an open playback device, `playback_device_get_config` has no
side effect and `playback_device_start`/`playback_device_stop` (whatever
the native call's outcome) never reassign the stored callback reference,
the user context pointer, the `DeviceConfig`, or the native device's
negotiated channel count and sample rate; only the streaming state can
change. -/
theorem playback_device_fields_immutable (d : WrappedDevice)
    (ok1 ok2 : Bool) :
    playback_device_get_config d = d.config ∧
    (playback_device_start d ok1).1.callback = d.callback ∧
    (playback_device_start d ok1).1.rust_userdata = d.rust_userdata ∧
    (playback_device_start d ok1).1.config = d.config ∧
    (playback_device_start d ok1).1.device.playbackChannels
      = d.device.playbackChannels ∧
    (playback_device_start d ok1).1.device.sampleRate
      = d.device.sampleRate ∧
    (playback_device_stop d ok2).1.callback = d.callback ∧
    (playback_device_stop d ok2).1.rust_userdata = d.rust_userdata ∧
    (playback_device_stop d ok2).1.config = d.config ∧
    (playback_device_stop d ok2).1.device.playbackChannels
      = d.device.playbackChannels ∧
    (playback_device_stop d ok2).1.device.sampleRate
      = d.device.sampleRate := by
  cases ok1 <;> cases ok2 <;>
    simp [playback_device_get_config, playback_device_start,
      playback_device_stop, ma_device_start, ma_device_stop]

/-- C10: `playback_device_open` does not check the wrapper allocation: if
`malloc` returns `NULL`, the immediately following field writes
dereference a `NULL` pointer (undefined behaviour, heap untouched);
graceful failure (free and return `NULL`) exists only for the native-init
branch. -/
theorem open_malloc_unchecked_null_deref (h : DeviceHeap)
    (options : DeviceOptions) (cb userdata : Nat)
    (maInit : MaDeviceConfig → Option (Nat × Nat)) :
    playback_device_open h options cb userdata false maInit
      = (h, OpenRet.ub) ∧
    (playback_device_open h options cb userdata true (fun _ => none)).2
      = OpenRet.null := by
  constructor
  · rfl
  · simp [playback_device_open]

end MiniaudioWrapper
